import Mathlib

set_option autoImplicit false

/-!
Shallow embedding of the Account REST service.

The request router is translated from `service/routes.py`. The Account
model (`service/models.py`) and the error-handler layer are not among the
sources, so they are modelled from the spec, as marked on each such
definition.
-/

namespace AccountService

/-- Modelled from the spec: the Account record shape (spec section 3);
`service/models.py` is not among the sources, so the attribute list follows
the spec. The id is assigned by the store; `date_joined` is kept as its
ISO-8601 text rendering, which the core treats as opaque. -/
structure Account where
  id : Nat
  name : String
  email : String
  address : String
  phone_number : String
  date_joined : String
deriving Repr, DecidableEq

/-- Modelled from the spec: the durable store (spec section 6), the ordered
sequence of persisted records in insertion order together with the counter
backing the exclusive id assignment of the store. -/
structure Store where
  accounts : List Account
  nextId : Nat
deriving Repr, DecidableEq

/-- The store of a freshly initialised service: no records, first id 1. -/
def Store.empty : Store :=
  { accounts := [], nextId := 1 }

/-- A parsed JSON body of an inbound request: a partial mapping of the
Account field names to text values. -/
structure Payload where
  name : Option String
  email : Option String
  address : Option String
  phone_number : Option String
  date_joined : Option String
deriving Repr, DecidableEq

/-- The parts of an HTTP request the handlers consult: the declared
Content-Type header and the JSON body, when one parses. -/
structure HttpRequest where
  contentType : Option String
  body : Option Payload
deriving Repr, DecidableEq

/-- A response body: a serialized Account, a list of serialized Accounts, a
plain JSON object of text fields, an error description, or nothing. -/
inductive RespBody where
  | jsonAccount (a : Account)
  | jsonAccounts (l : List Account)
  | jsonObj (fields : List (String × String))
  | errorMsg (message : String)
  | empty
deriving Repr, DecidableEq

/-- An HTTP response: status code, body, and the optional Location header. -/
structure Response where
  status : Nat
  body : RespBody
  location : Option String := none
deriving Repr, DecidableEq

/-- Modelled from the spec: the attribute group an inbound payload provides,
i.e. an Account before the store has assigned an id (spec section 4.1). -/
structure Fields where
  name : String
  email : String
  address : String
  phone_number : String
  date_joined : String
deriving Repr, DecidableEq

/-- Modelled from the spec: `deserialize(payload)` (spec section 4.1)
populates `name`, `email`, `address` and `phone_number` from the payload and
fails with a ValidationError when a required field is absent; `date_joined`
is taken from the payload when present, else it defaults to today. -/
def Account.deserialize (today : String) (p : Payload) : Except String Fields :=
  match p.name, p.email, p.address, p.phone_number with
  | some n, some e, some ad, some ph =>
      .ok { name := n, email := e, address := ad, phone_number := ph,
            date_joined := p.date_joined.getD today }
  | _, _, _, _ => .error "Invalid Account: missing required attribute"

/-- Modelled from the spec: `find(id)` returns the Account matching the id,
or a distinguished absence value (`none`) when no record exists; it never
raises for not-found (spec section 4.1). -/
def Store.find (st : Store) (account_id : Nat) : Option Account :=
  st.accounts.find? (fun a => a.id == account_id)

/-- Modelled from the spec: `all()` returns the complete ordered sequence of
persisted Accounts (spec section 4.1). -/
def Store.all (st : Store) : List Account :=
  st.accounts

/-- Modelled from the spec: `create()` persists the record and the store
generates a new unique id (spec sections 3 and 4.1); the new record is
appended, keeping insertion order. -/
def Store.create (st : Store) (f : Fields) : Account × Store :=
  let a : Account :=
    { id := st.nextId, name := f.name, email := f.email, address := f.address,
      phone_number := f.phone_number, date_joined := f.date_joined }
  (a, { accounts := st.accounts ++ [a], nextId := st.nextId + 1 })

/-- Modelled from the spec: `update(payload)` overwrites the mutable fields
of an already persisted instance from the payload; id and `date_joined` are
not altered by update (spec sections 3 and 4.1). A field absent from the
payload keeps its value. -/
def Account.update (a : Account) (p : Payload) : Account :=
  { a with
    name := p.name.getD a.name,
    email := p.email.getD a.email,
    address := p.address.getD a.address,
    phone_number := p.phone_number.getD a.phone_number }

/-- Modelled from the spec: persisting the change made by `update(payload)`:
the store record carrying this id is overwritten in place (spec section 4.1). -/
def Store.update (st : Store) (a : Account) : Store :=
  { st with accounts := st.accounts.map (fun b => if b.id == a.id then a else b) }

/-- Modelled from the spec: `delete()` removes the record matching the
instance id from the store when present; removing an absent record is a
silent success (spec section 4.1). -/
def Store.delete (st : Store) (account_id : Nat) : Store :=
  { st with accounts := st.accounts.filter (fun a => a.id != account_id) }

/-- Function `check_content_type` (routes.py lines 126-135): the check passes
only when the header is present, truthy (non-empty) and equal to the expected
media type; otherwise the request is aborted with 415. Returns the abort
response, or `none` when the check passes. -/
def check_content_type (media_type : String) (req : HttpRequest) : Option Response :=
  match req.contentType with
  | some content_type =>
      if content_type != "" && content_type == media_type then
        none
      else
        some { status := 415, body := .errorMsg ("Content-Type must be " ++ media_type) }
  | none =>
      some { status := 415, body := .errorMsg ("Content-Type must be " ++ media_type) }

/-- Handler `health` (routes.py lines 18-21). -/
def health : Response :=
  { status := 200, body := .jsonObj [("status", "OK")] }

/-- Handler `index` (routes.py lines 27-37). -/
def index : Response :=
  { status := 200, body := .jsonObj [("name", "Account REST API Service"), ("version", "1.0")] }

/-- Handler `create_accounts` (routes.py lines 43-60): checks the content
type, builds an Account from the posted JSON, persists it, and answers 201
with the serialized record and a Location header that the source leaves at
the placeholder `"/"` (routes.py line 57). A ValidationError raised by
deserialize is converted to 400 by the error-handler layer (modelled from the
spec, section 7); an absent body is likewise reported as 400 (spec
section 4.2). -/
def create_accounts (today : String) (st : Store) (req : HttpRequest) : Response × Store :=
  match check_content_type "application/json" req with
  | some resp => (resp, st)
  | none =>
      match req.body with
      | none => ({ status := 400, body := .errorMsg "Bad Request" }, st)
      | some p =>
          match Account.deserialize today p with
          | .error msg => ({ status := 400, body := .errorMsg msg }, st)
          | .ok f =>
              let created := st.create f
              ({ status := 201, body := .jsonAccount created.1, location := some "/" },
               created.2)

/-- Handler `list_accounts` (routes.py lines 66-74): answers 200 with every
persisted account serialized. -/
def list_accounts (st : Store) : Response :=
  { status := 200, body := .jsonAccounts st.all }

/-- Handler `read_account` (routes.py lines 81-87): finds the account and
answers 200 with its serialization, or aborts with 404 when `find` returns
the absence value. -/
def read_account (st : Store) (account_id : Nat) : Response :=
  match st.find account_id with
  | none =>
      { status := 404,
        body := .errorMsg ("Account with id [" ++ toString account_id ++ "] could not be found.") }
  | some account => { status := 200, body := .jsonAccount account }

/-- Function body of `update_account` (routes.py lines 93-104), as it would
run when invoked with an account id: find the account, abort 404 when absent,
otherwise overwrite it from the request JSON and answer 200 with the new
serialization. The body performs no content-type check; an absent or
unparseable JSON body is reported as 400. -/
def update_account (st : Store) (account_id : Nat) (req : HttpRequest) : Response × Store :=
  match st.find account_id with
  | none =>
      ({ status := 404,
         body := .errorMsg ("Account with id [" ++ toString account_id ++ "] could not be found.") },
       st)
  | some account =>
      match req.body with
      | none => ({ status := 400, body := .errorMsg "Bad Request" }, st)
      | some data =>
          let updated := account.update data
          ({ status := 200, body := .jsonAccount updated }, st.update updated)

/-- Handler `delete_account` (routes.py lines 110-119): finds the account,
deletes it when present, and answers 204 with an empty body either way. -/
def delete_account (st : Store) (account_id : Nat) : Response × Store :=
  match st.find account_id with
  | some account => ({ status := 204, body := .empty }, st.delete account.id)
  | none => ({ status := 204, body := .empty }, st)

/-- The HTTP methods the route table mentions. -/
inductive Method where
  | get | post | put | delete
deriving Repr, DecidableEq

/-- Decimal value of a run of digit characters. -/
def digits_to_nat (l : List Char) : Nat :=
  l.foldl (fun n c => n * 10 + (c.toNat - 48)) 0

/-- The Flask `int` path converter backing `<int:account_id>`: the segment
must consist of one or more decimal digits, which are then converted to the
integer they denote; anything else fails to match and the rule is not
taken. -/
def parse_int_segment (s : String) : Option Nat :=
  if s.data.isEmpty then none
  else if s.data.all Char.isDigit then some (digits_to_nat s.data) else none

/-- Parameter names of `health` as declared in routes.py (line 19). -/
def health_params : List String := []

/-- Parameter names of `index` as declared in routes.py (line 28). -/
def index_params : List String := []

/-- Parameter names of `create_accounts` as declared in routes.py (line 44). -/
def create_accounts_params : List String := []

/-- Parameter names of `list_accounts` as declared in routes.py (line 67). -/
def list_accounts_params : List String := []

/-- Parameter names of `read_account` as declared in routes.py (line 83). -/
def read_account_params : List String := ["account_id"]

/-- Parameter names of `update_account` as declared in routes.py (line 93):
the view declares a stray `self` in front of `account_id`. -/
def update_account_params : List String := ["self", "account_id"]

/-- Parameter names of `delete_account` as declared in routes.py (line 111). -/
def delete_account_params : List String := ["account_id"]

/-- Python keyword-call semantics: Flask invokes a view with the matched view
args as keyword arguments, so the call succeeds exactly when every declared
parameter is supplied; a missing one raises TypeError, which the framework
reports as 500 Internal Server Error. -/
def call_ok (params supplied : List String) : Bool :=
  params.all (fun p => supplied.contains p)

/-- The framework response when no rule matches the request path. -/
def routing_not_found : Response :=
  { status := 404, body := .errorMsg "Not Found" }

/-- The framework response when the path matches a rule but the method is not
among the declared ones. -/
def method_not_allowed : Response :=
  { status := 405, body := .errorMsg "Method Not Allowed" }

/-- The framework response when the view raises an uncaught exception, such
as the TypeError raised when a view is invoked with fewer arguments than it
declares. -/
def internal_server_error : Response :=
  { status := 500, body := .errorMsg "Internal Server Error" }

/-- The request router assembled from the `@app.route` declarations of
routes.py, Flask path matching with the `int` converter, and the keyword
call of the matched view. -/
def dispatch (today : String) (st : Store) (m : Method) (path : List String)
    (req : HttpRequest) : Response × Store :=
  match m, path with
  | .get, ["health"] =>
      if call_ok health_params [] then (health, st) else (internal_server_error, st)
  | .get, [] =>
      if call_ok index_params [] then (index, st) else (internal_server_error, st)
  | .post, ["accounts"] =>
      if call_ok create_accounts_params [] then create_accounts today st req
      else (internal_server_error, st)
  | .get, ["accounts"] =>
      if call_ok list_accounts_params [] then (list_accounts st, st)
      else (internal_server_error, st)
  | .get, ["accounts", s] =>
      match parse_int_segment s with
      | some account_id =>
          if call_ok read_account_params ["account_id"] then (read_account st account_id, st)
          else (internal_server_error, st)
      | none => (routing_not_found, st)
  | .put, ["accounts", s] =>
      match parse_int_segment s with
      | some account_id =>
          if call_ok update_account_params ["account_id"] then update_account st account_id req
          else (internal_server_error, st)
      | none => (routing_not_found, st)
  | .delete, ["accounts", s] =>
      match parse_int_segment s with
      | some account_id =>
          if call_ok delete_account_params ["account_id"] then delete_account st account_id
          else (internal_server_error, st)
      | none => (routing_not_found, st)
  | _, ["health"] => (method_not_allowed, st)
  | _, [] => (method_not_allowed, st)
  | _, ["accounts"] => (method_not_allowed, st)
  | _, ["accounts", s] =>
      match parse_int_segment s with
      | some _ => (method_not_allowed, st)
      | none => (routing_not_found, st)
  | _, _ => (routing_not_found, st)

/-- A sample persisted account used in concrete evaluations. -/
def alice : Account :=
  { id := 1, name := "Alice", email := "a@x.com", address := "1 Main St",
    phone_number := "555-0100", date_joined := "2020-01-01" }

/-- A store holding the single sample account. -/
def one_account_store : Store :=
  { accounts := [alice], nextId := 2 }

/-- A full, valid JSON payload matching the sample account. -/
def full_payload : Payload :=
  { name := some "Alice", email := some "a@x.com", address := some "1 Main St",
    phone_number := some "555-0100", date_joined := none }

/-- A request declaring the JSON media type and carrying the full payload. -/
def json_request : HttpRequest :=
  { contentType := some "application/json", body := some full_payload }

/-- A payload missing the required `name` field. -/
def missing_name_payload : Payload :=
  { name := none, email := some "a@x.com", address := some "1 Main St",
    phone_number := some "555-0100", date_joined := none }

/-- A JSON request whose payload is missing the required `name` field. -/
def missing_name_request : HttpRequest :=
  { contentType := some "application/json", body := some missing_name_payload }

/-- A request is well formed when it declares the JSON media type and its
payload carries every required field. -/
def HttpRequest.wellFormed (r : HttpRequest) : Bool :=
  (r.contentType == some "application/json") &&
    (match r.body with
     | some p =>
         p.name.isSome && p.email.isSome && p.address.isSome && p.phone_number.isSome
     | none => false)

/-- Folding a sequence of POST /accounts requests through the router. -/
def post_all (today : String) (rs : List HttpRequest) (st : Store) : Store :=
  rs.foldl (fun s r => (dispatch today s .post ["accounts"] r).2) st

/-- All ids persisted so far stay below the next id the store will assign. -/
def Store.fresh (st : Store) : Prop :=
  ∀ a ∈ st.accounts, a.id < st.nextId

/-- The content-type check aborts only ever with status 415. -/
theorem check_content_type_some (media_type : String) (req : HttpRequest) (r : Response)
    (h : check_content_type media_type req = some r) : r.status = 415 := by
  unfold check_content_type at h
  split at h
  · split at h
    · simp at h
    · injection h with h2
      rw [← h2]
  · injection h with h2
    rw [← h2]

/-- Routing a POST to /accounts invokes `create_accounts`. -/
theorem dispatch_post_accounts (today : String) (st : Store) (req : HttpRequest) :
    dispatch today st .post ["accounts"] req = create_accounts today st req := by
  simp [dispatch, call_ok, create_accounts_params]

/-- Routing a DELETE to /accounts/{id} with an integer segment invokes
`delete_account`. -/
theorem dispatch_delete_accounts (today : String) (st : Store) (req : HttpRequest)
    (s : String) (account_id : Nat) (h : parse_int_segment s = some account_id) :
    dispatch today st .delete ["accounts", s] req = delete_account st account_id := by
  simp [dispatch, h, call_ok, delete_account_params]

/-- After deleting an id, `find` on that id yields the absence value. -/
theorem find_delete (st : Store) (account_id : Nat) :
    (st.delete account_id).find account_id = none := by
  unfold Store.find Store.delete
  rw [List.find?_eq_none]
  intro a ha
  have h2 := (List.mem_filter.mp ha).2
  simpa using h2

/-- One well-formed POST appends exactly one record, carrying the id the
store assigns, and advances the id counter. -/
theorem create_step (today : String) (st : Store) (r : HttpRequest)
    (h : r.wellFormed = true) :
    ∃ a : Account, a.id = st.nextId ∧
      (dispatch today st .post ["accounts"] r).2 =
        { accounts := st.accounts ++ [a], nextId := st.nextId + 1 } := by
  rw [dispatch_post_accounts]
  unfold HttpRequest.wellFormed at h
  cases hb : r.body with
  | none => rw [hb] at h; simp at h
  | some p =>
      rw [hb] at h
      simp only [Bool.and_eq_true, beq_iff_eq, Option.isSome_iff_exists] at h
      obtain ⟨hct, ⟨⟨⟨n, hn⟩, ⟨e, he⟩⟩, ⟨ad, had⟩⟩, ⟨ph, hph⟩⟩ := h
      refine ⟨{ id := st.nextId, name := n, email := e, address := ad, phone_number := ph,
                date_joined := p.date_joined.getD today }, rfl, ?_⟩
      simp [create_accounts, check_content_type, hct, hb, Account.deserialize,
        hn, he, had, hph, Store.create]

/-- Folding well-formed POSTs grows the store by one record each and keeps
the persisted ids pairwise distinct. -/
theorem post_all_spec (today : String) (rs : List HttpRequest) (st : Store)
    (hwf : ∀ r ∈ rs, HttpRequest.wellFormed r = true) (hfresh : st.fresh)
    (hnodup : (st.accounts.map Account.id).Nodup) :
    (post_all today rs st).accounts.length = st.accounts.length + rs.length ∧
    ((post_all today rs st).accounts.map Account.id).Nodup := by
  induction rs generalizing st with
  | nil => simpa [post_all]
  | cons r rest ih =>
      obtain ⟨a, haid, hstep⟩ := create_step today st r (hwf r (by simp))
      have hwf2 : ∀ q ∈ rest, q.wellFormed = true := fun q hq => hwf q (by simp [hq])
      have hnotin : st.nextId ∉ st.accounts.map Account.id := by
        intro hmem
        obtain ⟨b, hbmem, hbid⟩ := List.mem_map.mp hmem
        have := hfresh b hbmem
        omega
      have hfr2 : Store.fresh { accounts := st.accounts ++ [a], nextId := st.nextId + 1 } := by
        intro b hb
        rcases List.mem_append.mp hb with hmem | hmem
        · exact Nat.lt_succ_of_lt (hfresh b hmem)
        · simp only [List.mem_singleton] at hmem
          subst hmem
          show b.id < st.nextId + 1
          omega
      have hnd2 : (((st.accounts ++ [a]).map Account.id)).Nodup := by
        rw [List.map_append]
        refine List.Nodup.append hnodup (List.nodup_singleton a.id) ?_
        intro x hx hx2
        simp only [List.map_cons, List.map_nil, List.mem_singleton] at hx2
        subst hx2
        rw [haid] at hx
        exact hnotin hx
      have hrec := ih { accounts := st.accounts ++ [a], nextId := st.nextId + 1 } hwf2 hfr2 hnd2
      have hfold : post_all today (r :: rest) st =
          post_all today rest { accounts := st.accounts ++ [a], nextId := st.nextId + 1 } := by
        simp [post_all, List.foldl_cons, hstep]
      rw [hfold]
      constructor
      · rw [hrec.1]
        simp
        omega
      · exact hrec.2

/-- C1: evaluation of the code at the failing input. A PUT for the existing
account 1 with a full valid JSON payload is answered 500, not 200, because
`update_account` declares a stray `self` parameter that the framework call
does not supply; the store is left untouched, so a subsequent GET cannot
reflect any new values. -/
theorem put_on_existing_account_returns_500 :
    dispatch "2020-01-01" one_account_store .put ["accounts", "1"] json_request =
      (internal_server_error, one_account_store) := by decide

/-- C2: evaluation of the code at the failing input. A valid POST on a fresh
store is answered 201 and the body carries the store-assigned id 1, but the
Location header is the placeholder `/`, which is not the path of the new
resource. -/
theorem post_location_header_is_placeholder :
    dispatch "2020-01-01" Store.empty .post ["accounts"] json_request =
      ({ status := 201, body := .jsonAccount alice, location := some "/" },
       { accounts := [alice], nextId := 2 }) ∧
    some "/" ≠ some ("/accounts/" ++ toString alice.id) := by decide

/-- C3, counterexample: a PUT for the existing account 1 whose declared
Content-Type is text/html is not answered 415 (the PUT handler performs no
content-type check, and the broken view signature makes the response 500). -/
theorem put_mismatched_media_type_not_415 :
    (dispatch "2020-01-01" one_account_store .put ["accounts", "1"]
        { contentType := some "text/html", body := some full_payload }).1.status ≠ 415 := by
  decide

/-- C3, amended: for the POST route, a missing or different declared
Content-Type is answered 415 before any model-layer work, the response being
exactly the `check_content_type` abort with the store untouched; the PUT
route performs no content-type check. -/
theorem post_media_type_enforced (today : String) (st : Store) (req : HttpRequest)
    (h : req.contentType ≠ some "application/json") :
    dispatch today st .post ["accounts"] req =
      ({ status := 415, body := .errorMsg "Content-Type must be application/json" }, st) := by
  rw [dispatch_post_accounts]
  cases hc : req.contentType with
  | none => simp [create_accounts, check_content_type, hc]
  | some ct =>
      have hne : ct ≠ "application/json" := fun e => h (by rw [hc, e])
      simp [create_accounts, check_content_type, hc, hne]

/-- C3, witness: a POST declaring no Content-Type at all is answered 415 and
the store is unchanged. -/
theorem post_media_type_enforced_witness :
    dispatch "2020-01-01" Store.empty .post ["accounts"]
      { contentType := none, body := some full_payload } =
      ({ status := 415, body := .errorMsg "Content-Type must be application/json" },
       Store.empty) :=
  post_media_type_enforced "2020-01-01" Store.empty
    { contentType := none, body := some full_payload } (by decide)

/-- C4: evaluation of the code at the failing input. A PUT for an id absent
from the store is answered 500, not 404, because the stray `self` parameter
makes the framework call of `update_account` raise TypeError before the
handler can look the id up; the store is left unchanged, as the claim
states. -/
theorem put_on_absent_account_returns_500 :
    dispatch "2020-01-01" Store.empty .put ["accounts", "999"] json_request =
      (internal_server_error, Store.empty) := by decide

/-- C5: a DELETE routed to any integer id is answered 204 with an empty body,
also when no account with that id exists, and deleting twice leaves the same
store as deleting once. -/
theorem delete_204_and_idempotent (today : String) (st : Store) (req : HttpRequest)
    (s : String) (account_id : Nat) (h : parse_int_segment s = some account_id) :
    (dispatch today st .delete ["accounts", s] req).1 = { status := 204, body := .empty } ∧
    (dispatch today (dispatch today st .delete ["accounts", s] req).2
        .delete ["accounts", s] req).2 =
      (dispatch today st .delete ["accounts", s] req).2 := by
  rw [dispatch_delete_accounts today st req s account_id h]
  rw [dispatch_delete_accounts today _ req s account_id h]
  constructor
  · cases hf : st.find account_id <;> simp [delete_account, hf]
  · cases hf : st.find account_id with
    | none => simp [delete_account, hf]
    | some account =>
        have hid : account.id = account_id := by
          have hp := List.find?_some
            (show st.accounts.find? (fun a => a.id == account_id) = some account from hf)
          simpa using hp
        simp [delete_account, hf, hid, find_delete]

/-- C5, witness: deleting the absent id 7 answers 204 and deleting it twice
equals deleting it once. -/
theorem delete_204_and_idempotent_witness :
    (dispatch "2020-01-01" one_account_store .delete ["accounts", "7"] json_request).1 =
      { status := 204, body := .empty } ∧
    (dispatch "2020-01-01"
        (dispatch "2020-01-01" one_account_store .delete ["accounts", "7"] json_request).2
        .delete ["accounts", "7"] json_request).2 =
      (dispatch "2020-01-01" one_account_store .delete ["accounts", "7"] json_request).2 :=
  delete_204_and_idempotent "2020-01-01" one_account_store json_request "7" 7 (by decide)

/-- C6: a GET routed to an integer id answers 200 with the serialized account
when `find` returns it, and 404 when `find` returns the absence value; the
handler is total, no exception reaches the transport layer, and the store is
untouched either way. -/
theorem read_account_found_or_not_found (today : String) (st : Store) (req : HttpRequest)
    (s : String) (account_id : Nat) (h : parse_int_segment s = some account_id) :
    (∀ account, st.find account_id = some account →
        dispatch today st .get ["accounts", s] req =
          ({ status := 200, body := .jsonAccount account }, st)) ∧
    (st.find account_id = none →
        dispatch today st .get ["accounts", s] req =
          ({ status := 404,
             body := .errorMsg ("Account with id [" ++ toString account_id ++
               "] could not be found.") }, st)) := by
  constructor
  · intro account hf
    simp [dispatch, h, call_ok, read_account_params, read_account, hf]
  · intro hf
    simp [dispatch, h, call_ok, read_account_params, read_account, hf]

/-- C6, witness: reading the persisted account 1 answers 200 with it, and
reading the absent id 5 answers 404. -/
theorem read_account_found_or_not_found_witness :
    dispatch "2020-01-01" one_account_store .get ["accounts", "1"] json_request =
      ({ status := 200, body := .jsonAccount alice }, one_account_store) ∧
    dispatch "2020-01-01" Store.empty .get ["accounts", "5"] json_request =
      ({ status := 404, body := .errorMsg "Account with id [5] could not be found." },
       Store.empty) :=
  ⟨(read_account_found_or_not_found "2020-01-01" one_account_store json_request "1" 1
      (by decide)).1 alice (by decide),
   by
    have h5 := (read_account_found_or_not_found "2020-01-01" Store.empty json_request "5" 5
      (by decide)).2 (by decide)
    simpa using h5⟩

/-- C7: a GET on /accounts against the empty store answers 200 with the empty
list, and after any sequence of N well-formed creates it answers 200 with
exactly N records whose ids are pairwise distinct, so each created account
appears exactly once. -/
theorem list_all_complete :
    (∀ (today : String) (req : HttpRequest),
        dispatch today Store.empty .get ["accounts"] req =
          ({ status := 200, body := .jsonAccounts [] }, Store.empty)) ∧
    (∀ (today : String) (req : HttpRequest) (rs : List HttpRequest),
        (∀ r ∈ rs, HttpRequest.wellFormed r = true) →
        ∃ l : List Account,
          dispatch today (post_all today rs Store.empty) .get ["accounts"] req =
            ({ status := 200, body := .jsonAccounts l }, post_all today rs Store.empty) ∧
          l.length = rs.length ∧ (l.map Account.id).Nodup) := by
  constructor
  · intro today req
    simp [dispatch, call_ok, list_accounts_params, list_accounts, Store.empty, Store.all]
  · intro today req rs hwf
    obtain ⟨hlen, hnd⟩ := post_all_spec today rs Store.empty hwf
      (by intro a ha; simp [Store.empty] at ha) (by simp [Store.empty])
    refine ⟨(post_all today rs Store.empty).accounts, ?_, ?_, hnd⟩
    · simp [dispatch, call_ok, list_accounts_params, list_accounts, Store.all]
    · simpa [Store.empty] using hlen

/-- C7, witness: after two creates of the sample payload the listing holds
exactly two records with distinct ids. -/
theorem list_all_complete_witness :
    ∃ l : List Account,
      dispatch "2020-01-01" (post_all "2020-01-01" [json_request, json_request] Store.empty)
          .get ["accounts"] json_request =
        ({ status := 200, body := .jsonAccounts l },
         post_all "2020-01-01" [json_request, json_request] Store.empty) ∧
      l.length = 2 ∧ (l.map Account.id).Nodup :=
  list_all_complete.2 "2020-01-01" json_request [json_request, json_request] (by decide)

/-- C8: a POST declaring the JSON media type whose payload is missing any one
of the required fields is answered 400 and the store is left exactly as it
was, so no partial write occurs. -/
theorem create_missing_required_field_rejected (today : String) (st : Store)
    (req : HttpRequest) (p : Payload)
    (hct : req.contentType = some "application/json")
    (hb : req.body = some p)
    (hmiss : p.name = none ∨ p.email = none ∨ p.address = none ∨ p.phone_number = none) :
    (dispatch today st .post ["accounts"] req).1.status = 400 ∧
    (dispatch today st .post ["accounts"] req).2 = st := by
  have hdes : Account.deserialize today p =
      .error "Invalid Account: missing required attribute" := by
    rcases hmiss with hm | hm | hm | hm <;>
      cases hn : p.name <;> cases he : p.email <;> cases ha : p.address <;>
        cases hph : p.phone_number <;> simp_all [Account.deserialize]
  rw [dispatch_post_accounts]
  simp [create_accounts, check_content_type, hct, hb, hdes]

/-- C8, witness: a POST whose payload lacks `name` is answered 400 and the
store keeps its single account. -/
theorem create_missing_required_field_rejected_witness :
    (dispatch "2020-01-01" one_account_store .post ["accounts"] missing_name_request).1.status
      = 400 ∧
    (dispatch "2020-01-01" one_account_store .post ["accounts"] missing_name_request).2 =
      one_account_store :=
  create_missing_required_field_rejected "2020-01-01" one_account_store
    missing_name_request missing_name_payload rfl rfl (Or.inl rfl)

/-- C9: GET requests on any path leave the store unchanged; a DELETE on an
absent id leaves the store unchanged; a POST answered 201 appends exactly one
record; and a run of the update handler answered 200 performs exactly one
store update, overwriting the found account from the payload. -/
theorem request_side_effects :
    (∀ (today : String) (st : Store) (path : List String) (req : HttpRequest),
        (dispatch today st .get path req).2 = st) ∧
    (∀ (st : Store) (account_id : Nat), st.find account_id = none →
        (delete_account st account_id).2 = st) ∧
    (∀ (today : String) (st : Store) (req : HttpRequest),
        (dispatch today st .post ["accounts"] req).1.status = 201 →
        ∃ a, (dispatch today st .post ["accounts"] req).2 =
          { accounts := st.accounts ++ [a], nextId := st.nextId + 1 }) ∧
    (∀ (st : Store) (account_id : Nat) (req : HttpRequest),
        (update_account st account_id req).1.status = 200 →
        ∃ account p, st.find account_id = some account ∧ req.body = some p ∧
          (update_account st account_id req).2 = st.update (account.update p)) := by
  refine ⟨?_, ?_, ?_, ?_⟩
  · intro today st path req
    unfold dispatch
    split <;> (try split) <;> simp_all [call_ok, read_account_params]
  · intro st account_id hf
    simp [delete_account, hf]
  · intro today st req h
    rw [dispatch_post_accounts] at h ⊢
    cases hcc : check_content_type "application/json" req with
    | some resp =>
        have h415 := check_content_type_some "application/json" req resp hcc
        simp [create_accounts, hcc, h415] at h
    | none =>
        cases hb : req.body with
        | none => simp [create_accounts, hcc, hb] at h
        | some p =>
            cases hd : Account.deserialize today p with
            | error msg => simp [create_accounts, hcc, hb, hd] at h
            | ok f =>
                refine ⟨(st.create f).1, ?_⟩
                simp [create_accounts, hcc, hb, hd, Store.create]
  · intro st account_id req h
    cases hf : st.find account_id with
    | none => simp [update_account, hf] at h
    | some account =>
        cases hb : req.body with
        | none => simp [update_account, hf, hb] at h
        | some p =>
            refine ⟨account, p, rfl, rfl, ?_⟩
            simp [update_account, hf, hb]

/-- C9, witness: a concrete GET and a DELETE on an absent id leave the store
as it was, a concrete POST answered 201 appends one record, and a concrete
run of the update handler answered 200 is exactly one store update. -/
theorem request_side_effects_witness :
    (dispatch "2020-01-01" one_account_store .get ["accounts"] json_request).2 =
      one_account_store ∧
    (delete_account Store.empty 7).2 = Store.empty ∧
    (∃ a, (dispatch "2020-01-01" Store.empty .post ["accounts"] json_request).2 =
      { accounts := Store.empty.accounts ++ [a], nextId := Store.empty.nextId + 1 }) ∧
    (∃ account p, one_account_store.find 1 = some account ∧
      json_request.body = some p ∧
      (update_account one_account_store 1 json_request).2 =
        one_account_store.update (account.update p)) :=
  ⟨request_side_effects.1 "2020-01-01" one_account_store ["accounts"] json_request,
   request_side_effects.2.1 Store.empty 7 (by decide),
   request_side_effects.2.2.1 "2020-01-01" Store.empty json_request (by decide),
   request_side_effects.2.2.2 one_account_store 1 json_request (by decide)⟩

/-- C10: a GET, PUT or DELETE whose /accounts/{x} segment is not a run of
decimal digits is rejected by the routing layer with the framework 404: no
handler runs and the store is untouched. -/
theorem non_integer_segment_rejected_by_routing (today : String) (st : Store)
    (req : HttpRequest) (m : Method) (s : String)
    (hs : parse_int_segment s = none)
    (hm : m = Method.get ∨ m = Method.put ∨ m = Method.delete) :
    dispatch today st m ["accounts", s] req = (routing_not_found, st) := by
  rcases hm with hmm | hmm | hmm <;> subst hmm <;> simp [dispatch, hs]

/-- C10, witness: a PUT on /accounts/abc is answered by the framework 404 and
the store is untouched. -/
theorem non_integer_segment_rejected_by_routing_witness :
    dispatch "2020-01-01" one_account_store .put ["accounts", "abc"] json_request =
      (routing_not_found, one_account_store) :=
  non_integer_segment_rejected_by_routing "2020-01-01" one_account_store json_request
    .put "abc" (by decide) (Or.inr (Or.inl rfl))

end AccountService
